import Mathlib

/-!
Verification development for the android-notes documentation site.

The repository's custom logic is two landing-page components (two variants
of `HomePage`), a root layout shell (`Layout`), and content documents with
front-matter. We embed the JSX element trees produced by these components
as values of a small HTML-like inductive type and prove the structural
properties of the specification over those trees. External framework
components (`Card`, `Cards`, `Link`, `Image`, `RootProvider`) are kept as
opaque element nodes carrying exactly the attributes the source passes.
-/

namespace AndroidNotes

/-- Markup tree produced by a render: an element with a tag, an attribute
list, and children, or a text node. -/
inductive Html where
  | element (tag : String) (attrs : List (String × String)) (children : List Html)
  | text (s : String)

/-- Lookup of an attribute value by key in an attribute list. -/
def lookupAttr (name : String) : List (String × String) → Option String
  | [] => none
  | (k, v) :: rest => if k = name then some v else lookupAttr name rest

/-- Attribute of an element node; text nodes carry no attributes. -/
def Html.attr (name : String) : Html → Option String
  | .element _ attrs _ => lookupAttr name attrs
  | .text _ => none

/-- Tag of an element node. -/
def Html.tagOf : Html → Option String
  | .element t _ _ => some t
  | .text _ => none

/-- Children of a node. -/
def Html.childList : Html → List Html
  | .element _ _ cs => cs
  | .text _ => []

mutual
/-- Preorder list of all elements in a tree whose tag equals `t`. -/
def elemsWithTag (t : String) : Html → List Html
  | .element tg attrs cs =>
      (if tg = t then [Html.element tg attrs cs] else []) ++ elemsWithTagList t cs
  | .text _ => []

/-- Preorder list of all elements of a forest whose tag equals `t`. -/
def elemsWithTagList (t : String) : List Html → List Html
  | [] => []
  | h :: hs => elemsWithTag t h ++ elemsWithTagList t hs
end

/-- Feature card record: the data the page passes to each `Card` element. -/
structure FeatureCard where
  title : String
  description : String
  icon : String
deriving DecidableEq, Repr

/-- Card record read back off a rendered `Card` element. -/
def cardOfHtml (h : Html) : FeatureCard :=
  { title := (h.attr "title").getD ""
    description := (h.attr "description").getD ""
    icon := (h.attr "icon").getD "" }

/-- All feature-card records of a rendered page, in document order. -/
def renderedCards (page : Html) : List FeatureCard :=
  (elemsWithTag "Card" page).map cardOfHtml

/-- Titles of the rendered feature cards, in document order. -/
def cardTitles (page : Html) : List String :=
  (renderedCards page).map FeatureCard.title

/-- Children of the hero banner: the first `section` of the page holds one
container `div` whose children are the hero contents. -/
def heroChildren (page : Html) : List Html :=
  match (elemsWithTag "section" page).head? with
  | some s =>
      match s.childList.head? with
      | some d => d.childList
      | none => []
  | none => []

/-- Tags of the hero banner's elements, in document order. -/
def heroTags (page : Html) : List String :=
  (heroChildren page).filterMap Html.tagOf

/-- The six `Card` elements, byte-identical in both `HomePage` variants. -/
def featureCardElems : List Html :=
  [ .element "Card"
      [("title", "Kotlin OOP"),
       ("description", "Encapsulation, inheritance, polymorphism & abstraction for Android classes"),
       ("icon", "📐"), ("draggable", "true")] []
  , .element "Card"
      [("title", "Kotlin Functions"),
       ("description", "Declarative, higher‑order & extension functions in Android code"),
       ("icon", "🔧"), ("draggable", "true")] []
  , .element "Card"
      [("title", "Coroutines & Flows"),
       ("description", "Suspend, launch & Flow streams for async tasks in Android"),
       ("icon", "🚀"), ("draggable", "true")] []
  , .element "Card"
      [("title", "Conditionals & Loops"),
       ("description", "if/when and for/while constructs for Kotlin control flow"),
       ("icon", "🔁"), ("draggable", "true")] []
  , .element "Card"
      [("title", "Arrays & Lists"),
       ("description", "Fixed & dynamic collections: Array, List, Set, Map usage"),
       ("icon", "📋"), ("draggable", "true")] []
  , .element "Card"
      [("title", "Compose Basics"),
       ("description", "Composable functions, state & modifiers for UI in Jetpack Compose"),
       ("icon", "🎨"), ("draggable", "true")] [] ]

/-- Landing page variant in src/unnamed/part_000: hero with heading,
tagline and docs link, then the six feature cards. The component takes no
props, which we embed as a `Unit` argument. -/
def HomePage_part000 : Unit → Html := fun _ =>
  .element "main" [("className", "flex flex-1 flex-col justify-center text-center")]
    [ .element "section" [("className", "text-center py-20")]
        [ .element "div" [("className", "container mx-auto px-6")]
            [ .element "h1" [("className", "text-7xl text-fd-primary font-extrabold mb-4")]
                [.text "Android Notes by Me"]
            , .element "p" [("className", "text-xl text-fd-secondary-foreground mb-6")]
                [.text "Who am I? You don\x27t need to know that."]
            , .element "Link"
                [("href", "/docs"),
                 ("className", "hover:bg-fd-primary hover:text-fd-primary-foreground text-white px-8 py-3 rounded-lg text-lg bg-fd-primary-foreground mt-5 transition-all")]
                [.text "Go to docs"] ] ]
    , .element "section" [("id", "features"), ("className", "py-16")]
        [ .element "div" [("className", "container mx-auto px-6")]
            [ .element "Cards" [] featureCardElems ] ] ]

/-- Landing page variant in src/unnamed/part_001: same as part_000 except
the hero opens with a banner `Image` and the docs link carries dark-mode
styling. -/
def HomePage_part001 : Unit → Html := fun _ =>
  .element "main" [("className", "flex flex-1 flex-col justify-center text-center")]
    [ .element "section" [("className", "text-center py-20")]
        [ .element "div" [("className", "container mx-auto px-6")]
            [ .element "Image"
                [("src", "/images/android-sunset-icon.png"),
                 ("width", "512"), ("height", "512"), ("alt", "icon"),
                 ("className", "text-center mx-auto")] []
            , .element "h1" [("className", "text-7xl text-fd-primary font-extrabold mb-4")]
                [.text "Android Notes by Me"]
            , .element "p" [("className", "text-xl text-fd-secondary-foreground mb-6")]
                [.text "Who am I? You don\x27t need to know that."]
            , .element "Link"
                [("href", "/docs"),
                 ("className", "dark:hover:bg-fd-primary dark:hover:text-fd-primary-foreground dark:text-white px-8 py-3 rounded-lg text-lg dark:bg-fd-primary-foreground mt-5 transition-all bg-fd-accent hover:bg-fd-primary hover:text-white text-fd-primary-foreground")]
                [.text "Go to docs"] ] ]
    , .element "section" [("id", "features"), ("className", "py-16")]
        [ .element "div" [("className", "container mx-auto px-6")]
            [ .element "Cards" [] featureCardElems ] ] ]

/-- Font object produced by the external next/font/google loader. The
loader generates opaque class strings, so the two fonts configured in
src/app/layout.tsx are parameters of the shell: `className` is the class
applying the font, `variableClass` the class declaring its CSS variable. -/
structure NextFont where
  className : String
  variableClass : String
deriving DecidableEq, Repr

/-- Root shell of src/app/layout.tsx: an `html` element with a fixed
language attribute and the two font classes, wrapping the children in a
`body` and the framework's `RootProvider`. -/
def Layout (jetbrainsMono firaCode : NextFont) (children : Html) : Html :=
  .element "html"
    [("lang", "en"),
     ("className", jetbrainsMono.className ++ " " ++ firaCode.variableClass),
     ("suppressHydrationWarning", "true")]
    [ .element "body" [("className", "flex flex-col min-h-screen")]
        [ .element "RootProvider" [] [children] ] ]

/-- Content document: the front-matter key-value block of an article. -/
structure ContentDoc where
  frontMatter : List (String × String)
deriving DecidableEq, Repr

/-- Front-matter of src/content/docs/android-components.mdx. -/
def androidComponentsDoc : ContentDoc :=
  { frontMatter :=
      [("title", "Android App Components"),
       ("description", "Components that comprise and android app")] }

/-- Front-matter of the Jetpack Compose content document. -/
def jetpackComposeDoc : ContentDoc :=
  { frontMatter :=
      [("title", "Jetpack Compose"),
       ("description", "A guide to using jetpack compose in android.")] }

/-- All content documents present in the repository source. -/
def contentDocs : List ContentDoc := [androidComponentsDoc, jetpackComposeDoc]

/-- Presence of a front-matter field in a content document. -/
def hasField (d : ContentDoc) (k : String) : Bool :=
  (lookupAttr k d.frontMatter).isSome

/-- C1: every render of either `HomePage` variant yields a feature-card
section with exactly six `Card` elements, each carrying a non-empty
title, a non-empty description and a non-empty icon string. -/
theorem C1_six_wellformed_cards :
    (renderedCards (HomePage_part000 ())).length = 6 ∧
    (renderedCards (HomePage_part001 ())).length = 6 ∧
    (∀ c ∈ renderedCards (HomePage_part000 ()),
       c.title ≠ "" ∧ c.description ≠ "" ∧ c.icon ≠ "") ∧
    (∀ c ∈ renderedCards (HomePage_part001 ()),
       c.title ≠ "" ∧ c.description ≠ "" ∧ c.icon ≠ "") := by
  decide

/-- C2: a render of the landing page produces a card list of length six
whose titles are exactly the six documented topic titles: no other title
occurs and none is missing, in either variant. -/
theorem C2_title_set :
    (renderedCards (HomePage_part000 ())).length = 6 ∧
    (renderedCards (HomePage_part001 ())).length = 6 ∧
    ∀ t : String,
      (t ∈ cardTitles (HomePage_part000 ()) ↔
        (t = "Kotlin OOP" ∨ t = "Kotlin Functions" ∨ t = "Coroutines & Flows" ∨
         t = "Conditionals & Loops" ∨ t = "Arrays & Lists" ∨ t = "Compose Basics")) ∧
      (t ∈ cardTitles (HomePage_part001 ()) ↔
        (t = "Kotlin OOP" ∨ t = "Kotlin Functions" ∨ t = "Coroutines & Flows" ∨
         t = "Conditionals & Loops" ∨ t = "Arrays & Lists" ∨ t = "Compose Basics")) := by
  refine ⟨by decide, by decide, fun t => ?_⟩
  have h0 : cardTitles (HomePage_part000 ()) =
      ["Kotlin OOP", "Kotlin Functions", "Coroutines & Flows",
       "Conditionals & Loops", "Arrays & Lists", "Compose Basics"] := by decide
  have h1 : cardTitles (HomePage_part001 ()) =
      ["Kotlin OOP", "Kotlin Functions", "Coroutines & Flows",
       "Conditionals & Loops", "Arrays & Lists", "Compose Basics"] := by decide
  rw [h0, h1]
  constructor <;> simp

/-- C3: in every render of either `HomePage` variant, each call-to-action
`Link` element points at the documentation index path `/docs` (and each
variant renders exactly one such link). -/
theorem C3_cta_href :
    (elemsWithTag "Link" (HomePage_part000 ())).length = 1 ∧
    (elemsWithTag "Link" (HomePage_part001 ())).length = 1 ∧
    (∀ l ∈ elemsWithTag "Link" (HomePage_part000 ()),
       l.attr "href" = some "/docs") ∧
    (∀ l ∈ elemsWithTag "Link" (HomePage_part001 ()),
       l.attr "href" = some "/docs") := by
  decide

/-- C4: the child content tree passed to the root shell has no influence
on the `html` element's language attribute or its font class tokens: any
two children yield the same `lang` and the same `className`. -/
theorem C4_shell_children_irrelevant (jm fc : NextFont) (c₁ c₂ : Html) :
    (Layout jm fc c₁).attr "lang" = (Layout jm fc c₂).attr "lang" ∧
    (Layout jm fc c₁).attr "className" = (Layout jm fc c₂).attr "className" :=
  ⟨rfl, rfl⟩

/-- C5: for every children tree, the root shell sets the `html` element's
language attribute to `en` and applies both font classes: the JetBrains
Mono className followed by the Fira Code CSS-variable class. -/
theorem C5_shell_lang_and_fonts (jm fc : NextFont) (children : Html) :
    (Layout jm fc children).attr "lang" = some "en" ∧
    (Layout jm fc children).attr "className" =
      some (jm.className ++ " " ++ fc.variableClass) :=
  ⟨rfl, rfl⟩

/-- C6: every content document in the repository declares both a title
field and a description field in its front-matter block. -/
theorem C6_frontmatter_complete :
    ∀ d ∈ contentDocs, hasField d "title" = true ∧ hasField d "description" = true := by
  decide

/-- Witness for C6: the android-components document is a content document
of the repository, and it declares both front-matter fields. -/
theorem C6_frontmatter_complete_witness :
    hasField androidComponentsDoc "title" = true ∧
    hasField androidComponentsDoc "description" = true :=
  C6_frontmatter_complete androidComponentsDoc (by decide)

/-- C7: the landing page render is a pure function of hard-coded
literals: both `HomePage` variants take no inputs, and any two renders
produce identical output. -/
theorem C7_render_deterministic (u₁ u₂ : Unit) :
    HomePage_part000 u₁ = HomePage_part000 u₂ ∧
    HomePage_part001 u₁ = HomePage_part001 u₂ :=
  ⟨rfl, rfl⟩

/-- C8 counterexample: in the `part_001` variant the hero banner does not
consist of exactly a title heading, a tagline and a call-to-action link:
its element list is not `h1, p, Link`. -/
theorem C8_counterexample :
    ¬ heroTags (HomePage_part001 ()) = ["h1", "p", "Link"] := by
  decide

/-- C8 (amended): the hero banner of the `part_000` variant consists of
exactly a title heading, a tagline and a call-to-action link to the docs
index; the `part_001` variant's hero consists of exactly those three
elements preceded by a banner image. -/
theorem C8_hero_structure :
    heroTags (HomePage_part000 ()) = ["h1", "p", "Link"] ∧
    heroTags (HomePage_part001 ()) = ["Image", "h1", "p", "Link"] ∧
    (∀ l ∈ heroChildren (HomePage_part000 ()),
       l.tagOf = some "Link" → l.attr "href" = some "/docs") ∧
    (∀ l ∈ heroChildren (HomePage_part001 ()),
       l.tagOf = some "Link" → l.attr "href" = some "/docs") := by
  decide

/-- C9: every one of the six feature cards on either `HomePage` variant
carries an icon that is a single-glyph string: a string of exactly one
Unicode character. -/
theorem C9_single_glyph_icons :
    (∀ c ∈ renderedCards (HomePage_part000 ()), c.icon.length = 1) ∧
    (∀ c ∈ renderedCards (HomePage_part001 ()), c.icon.length = 1) := by
  decide

/-- C10: the two `HomePage` source variants render the same feature-card
list: identical titles, descriptions and icons in the same order. -/
theorem C10_variants_agree :
    renderedCards (HomePage_part000 ()) = renderedCards (HomePage_part001 ()) := by
  decide

end AndroidNotes
